import Mathlib

/-!
# Verification of the job-aggregation core (filters, scorer, extractors, orchestrator)

Shallow embedding of the core components of the job-scraper repository:

* `utils/salary_extractor.py` (`SalaryExtractor`)
* `utils/deadline_extractor.py` (`DeadlineExtractor`)
* `utils/job_scorer.py` (`JobScorer`)
* `filters/job_filter.py` (`JobFilter`)
* the dedup / scoring / sorting stages of `main.py`

Python strings are `String`, Python `int` is `Int`, Python `float` is modelled
exactly by `Rat` (all float values arising in the translated code are produced
by arithmetic on decimal inputs and stay within exact-representable range for
every claim considered), `None`-able values are `Option`, and code that
catches exceptions internally is modelled by `Option`-returning functions.
`datetime.now()` is an explicit parameter `now` (seconds, with day numbers in
the proleptic Gregorian calendar, 1970-01-01 = day 0); `datetime` values are
total seconds.  The regular expressions used by the Python code are embedded
as data (`Rx`) and run by a backtracking matcher with Python `re` semantics
(leftmost match, alternatives in order, greedy quantifiers); all call sites in
the translated code either pass `re.IGNORECASE` or match lowercase patterns
against lowercased text, so the matcher compares characters case-insensitively
(ASCII case, as in `Char.toLower`).
-/

/-! ## Python string primitives -/

/-- Python whitespace for `str.strip` (ASCII part, which is what the scraped
records contain). -/
def isPySpace (c : Char) : Bool :=
  c = ' ' || c = '\t' || c = '\n' || c = '\x0d' || c = '\x0b' || c = '\x0c'

/-- Python `str.strip()`. -/
def pyStrip (s : String) : String :=
  ⟨((s.data.dropWhile isPySpace).reverse.dropWhile isPySpace).reverse⟩

/-- Does `pre` occur at the head of `l`? -/
def listHasPfx : List Char → List Char → Bool
  | [], _ => true
  | _ :: _, [] => false
  | c :: cs, h :: hs => c = h && listHasPfx cs hs

/-- Contiguous-substring test on character lists (Python `needle in hay`). -/
def listSubstr (needle : List Char) : List Char → Bool
  | [] => listHasPfx needle []
  | h :: hs => listHasPfx needle (h :: hs) || listSubstr needle hs

/-- Python `needle in hay` on strings. -/
def pySubstr (needle hay : String) : Bool :=
  listSubstr needle.data hay.data

/-- Python `str.lower()` (ASCII case, sufficient for the scraped inputs). -/
def pyLower (s : String) : String := ⟨s.data.map Char.toLower⟩

/-! ## Proleptic Gregorian calendar (used to model `datetime`)

Day numbers are days since 1970-01-01 (Howard Hinnant's `days_from_civil` /
`civil_from_days` algorithms, which is exactly the calendar `datetime` uses).
A `datetime` value is its total number of seconds `dayNumber * 86400 + timeOfDay`. -/

def isLeapYear (y : Int) : Bool :=
  (y % 4 = 0 && y % 100 ≠ 0) || y % 400 = 0

def daysInMonth (y : Int) (m : Nat) : Nat :=
  if m = 2 then (if isLeapYear y then 29 else 28)
  else if m = 4 || m = 6 || m = 9 || m = 11 then 30
  else 31

/-- Day number of the civil date `y-m-d` (1970-01-01 = 0). -/
def daysFromCivil (y : Int) (m d : Nat) : Int :=
  let y' : Int := if m ≤ 2 then y - 1 else y
  let era : Int := y'.fdiv 400
  let yoe : Int := y' - era * 400
  let mp : Int := (m : Int) + (if m > 2 then -3 else 9)
  let doy : Int := (153 * mp + 2).fdiv 5 + (d : Int) - 1
  let doe : Int := yoe * 365 + yoe.fdiv 4 - yoe.fdiv 100 + doy
  era * 146097 + doe - 719468

/-- Civil date `(y, m, d)` of a day number. -/
def civilFromDays (z : Int) : Int × Nat × Nat :=
  let z := z + 719468
  let era : Int := z.fdiv 146097
  let doe : Int := z - era * 146097
  let yoe : Int := (doe - doe.fdiv 1460 + doe.fdiv 36524 - doe.fdiv 146096).fdiv 365
  let doy : Int := doe - (365 * yoe + yoe.fdiv 4 - yoe.fdiv 100)
  let mp : Int := (5 * doy + 2).fdiv 153
  let d : Int := doy - (153 * mp + 2).fdiv 5 + 1
  let m : Int := mp + (if mp < 10 then 3 else -9)
  (yoe + era * 400 + (if m ≤ 2 then 1 else 0), m.toNat, d.toNat)

/-- `datetime` years must lie in `[MINYEAR, MAXYEAR] = [1, 9999]`; arithmetic
leaving that range raises `OverflowError` (modelled as `none`). -/
def dtInRange (t : Int) : Bool :=
  daysFromCivil 1 1 1 * 86400 ≤ t && t ≤ daysFromCivil 9999 12 31 * 86400 + 86399

def dtCheckRange (t : Int) : Option Int :=
  if dtInRange t then some t else none

/-- `timedelta(days=n)` requires `|n| ≤ 999999999`; returns seconds. -/
def tdDays (n : Int) : Option Int :=
  if n.natAbs ≤ 999999999 then some (n * 86400) else none

def dtYear (t : Int) : Int := (civilFromDays (t.fdiv 86400)).1

/-- `datetime.replace(year=y)` (raises, i.e. `none`, when the day does not
exist in the target year or the year is out of range). -/
def dtReplaceYear (t : Int) (y : Int) : Option Int :=
  let c := civilFromDays (t.fdiv 86400)
  if 1 ≤ y && y ≤ 9999 && c.2.2 ≤ daysInMonth y c.2.1 then
    some (daysFromCivil y c.2.1 c.2.2 * 86400 + t.fmod 86400)
  else none

def pad2 (n : Nat) : String := if n < 10 then "0" ++ toString n else toString n

def pad4 (n : Int) : String :=
  if n < 10 then "000" ++ toString n
  else if n < 100 then "00" ++ toString n
  else if n < 1000 then "0" ++ toString n
  else toString n

/-- `datetime.strftime('%Y-%m-%d')`. -/
def dtToIso (t : Int) : String :=
  let c := civilFromDays (t.fdiv 86400)
  pad4 c.1 ++ "-" ++ pad2 c.2.1 ++ "-" ++ pad2 c.2.2

/-! ## Exact model of the Python floats appearing in the scorer/extractors -/

/-- `q * (k : Rat)`, computed without the kernel-irreducible `Rat.mul`
(`ratMulNat_eq` below shows it is exactly multiplication). -/
def ratMulNat (q : Rat) (k : Nat) : Rat := mkRat (q.num * (k : Int)) q.den

/-- `q / (k : Rat)`, computed without the kernel-irreducible `Rat.div`
(`ratDivNat_eq` below shows it is exactly division). -/
def ratDivNat (q : Rat) (k : Nat) : Rat := mkRat q.num (q.den * k)

/-- Python `int(x)` on a float/rational: truncation toward zero
(the exact integer quotient of numerator by denominator). -/
def pyTrunc (q : Rat) : Int := q.num.tdiv (q.den : Int)

/-- Round-half-to-even to an integer (the rounding used by `format`/`round`);
`mkRat (q.num - f * q.den) q.den` is the fractional part `q - f`. -/
def roundHalfEven (q : Rat) : Int :=
  let f := q.floor
  let r := mkRat (q.num - f * (q.den : Int)) q.den
  if r < mkRat 1 2 then f
  else if mkRat 1 2 < r then f + 1
  else if f % 2 = 0 then f else f + 1

/-- Python `f"{x:.0f}"`. -/
def fmtF0 (x : Rat) : String :=
  let r := roundHalfEven x
  toString r

/-- Python `f"{x:.1f}"`. -/
def fmtF1 (x : Rat) : String :=
  let r := roundHalfEven (ratMulNat x 10)
  if r < 0 then
    "-" ++ toString ((-r).tdiv 10) ++ "." ++ toString ((-r).tmod 10)
  else
    toString (r.tdiv 10) ++ "." ++ toString (r.tmod 10)

/-- Python `round(x, 1)` (used for `skills_match_pct`). -/
def pyRound1 (x : Rat) : Rat := mkRat (roundHalfEven (ratMulNat x 10)) 10

/-! ## Regular-expression engine (Python `re` semantics)

The patterns in the source are embedded as `Rx` values and run by a
backtracking matcher: alternatives are tried left to right, quantifiers are
greedy, `search`/`finditer` try start positions left to right and commit to
the first anchored match.  Character comparison is case-insensitive (every
call site either passes `re.IGNORECASE` or matches a lowercase pattern
against lowercased text).  A fuel argument makes the matcher structurally
recursive; `rxFuel` is large enough that it is never exhausted for the
patterns at hand (each nested call consumes one unit and the call depth is
bounded by pattern size times the number of quantifier iterations, each of
which consumes at least one character). -/

/-- One alternative inside a character class. -/
inductive CAtom where
  | ch (c : Char)
  | range (lo hi : Char)
  | digit
  | space
deriving Repr, DecidableEq

def charLE (a b : Char) : Bool := a.val ≤ b.val

def swapCase (c : Char) : Char :=
  if c.isLower then c.toUpper else if c.isUpper then c.toLower else c

def catomMatch (a : CAtom) (c : Char) : Bool :=
  match a with
  | .ch x => x.toLower = c.toLower
  | .range lo hi =>
      (charLE lo c && charLE c hi) || (charLE lo (swapCase c) && charLE (swapCase c) hi)
  | .digit => c.isDigit
  | .space => isPySpace c

/-- Embedded regular expressions.  `rep lo hi r` is the greedy quantifier
`r{lo,hi}` (`hi = none` means unbounded); `group n r` is the capturing group
number `n`; `nlb cs` is the negative lookbehind `(?<![cs])`; `wordB` is `\b`. -/
inductive Rx where
  | eps
  | lit (c : Char)
  | cls (neg : Bool) (atoms : List CAtom)
  | seq (a b : Rx)
  | alt (a b : Rx)
  | rep (lo : Nat) (hi : Option Nat) (r : Rx)
  | group (n : Nat) (r : Rx)
  | wordB
  | nlb (cs : List Char)
deriving Repr

def isWordChar (c : Char) : Bool := c.isAlpha || c.isDigit || c = '_'

def charAtIsWord (t : Array Char) (i : Nat) : Bool :=
  match t[i]? with
  | some c => isWordChar c
  | none => false

/-- Is position `i` a `\b` boundary of `t`? -/
def atBoundary (t : Array Char) (i : Nat) : Bool :=
  let before := if i = 0 then false else charAtIsWord t (i - 1)
  before ≠ charAtIsWord t i

/-- Captures: most recent binding of each group number first. -/
abbrev Caps := List (Nat × Nat × Nat)

/-- The backtracking matcher, in continuation-passing style.  Returns the
first success of the continuation `k` in Python's backtracking order. -/
def rxMat (t : Array Char) : Nat → Rx → Nat → Caps → (Nat → Caps → Option (Nat × Caps)) →
    Option (Nat × Caps)
  | 0, _, _, _, _ => none
  | _ + 1, .eps, i, caps, k => k i caps
  | _ + 1, .lit c, i, caps, k =>
      match t[i]? with
      | some c2 => if c.toLower = c2.toLower then k (i + 1) caps else none
      | none => none
  | _ + 1, .cls neg atoms, i, caps, k =>
      match t[i]? with
      | some c2 => if (atoms.any (catomMatch · c2)) ≠ neg then k (i + 1) caps else none
      | none => none
  | fuel + 1, .seq a b, i, caps, k =>
      rxMat t fuel a i caps (fun j caps2 => rxMat t fuel b j caps2 k)
  | fuel + 1, .alt a b, i, caps, k =>
      match rxMat t fuel a i caps k with
      | some res => some res
      | none => rxMat t fuel b i caps k
  | fuel + 1, .rep lo hi r, i, caps, k =>
      if lo > 0 then
        rxMat t fuel r i caps fun j caps2 =>
          rxMat t fuel (.rep (lo - 1) (hi.map (· - 1)) r) j caps2 k
      else if hi = some 0 then
        k i caps
      else
        match rxMat t fuel r i caps (fun j caps2 =>
            if j > i then rxMat t fuel (.rep 0 (hi.map (· - 1)) r) j caps2 k else none) with
        | some res => some res
        | none => k i caps
  | fuel + 1, .group n r, i, caps, k =>
      rxMat t fuel r i caps (fun j caps2 => k j ((n, i, j) :: caps2))
  | _ + 1, .wordB, i, caps, k => if atBoundary t i then k i caps else none
  | _ + 1, .nlb cs, i, caps, k =>
      let bad :=
        if i = 0 then false
        else
          match t[i - 1]? with
          | some c => cs.any (· = c)
          | none => false
      if bad then none else k i caps

def rxSize : Rx → Nat
  | .eps | .lit _ | .cls _ _ | .wordB | .nlb _ => 1
  | .seq a b | .alt a b => 1 + rxSize a + rxSize b
  | .rep _ _ r | .group _ r => 2 + rxSize r

def rxFuel (r : Rx) (t : Array Char) : Nat :=
  (rxSize r + 4) * (t.size + 4) * 4

/-- Anchored match of `r` at position `i`. -/
def rxMatchAt (t : Array Char) (r : Rx) (i : Nat) : Option (Nat × Caps) :=
  rxMat t (rxFuel r t) r i [] (fun j caps => some (j, caps))

/-- `re.search` from position `start`: first start position with an anchored
match; yields `(matchStart, matchEnd, captures)`. -/
def rxSearchFrom (t : Array Char) (r : Rx) : Nat → Nat → Option (Nat × Nat × Caps)
  | 0, _ => none
  | fuel + 1, i =>
      if i > t.size then none
      else
        match rxMatchAt t r i with
        | some (j, caps) => some (i, j, caps)
        | none => rxSearchFrom t r fuel (i + 1)

def rxSearch (t : Array Char) (r : Rx) : Option (Nat × Nat × Caps) :=
  rxSearchFrom t r (t.size + 2) 0

/-- Does `re.search(r, s)` succeed? -/
def rxTest (r : Rx) (s : String) : Bool :=
  (rxSearch s.data.toArray r).isSome

/-- `re.finditer`: all non-overlapping matches, scanning left to right. -/
def rxFindAllFrom (t : Array Char) (r : Rx) : Nat → Nat → List (Nat × Nat × Caps)
  | 0, _ => []
  | fuel + 1, i =>
      match rxSearchFrom t r (t.size + 2) i with
      | none => []
      | some (s, e, caps) =>
          (s, e, caps) :: rxFindAllFrom t r fuel (if e > s then e else s + 1)

def rxFindAll (t : Array Char) (r : Rx) : List (Nat × Nat × Caps) :=
  rxFindAllFrom t r (t.size + 2) 0

/-- The substring of `t` from `a` (inclusive) to `b` (exclusive). -/
def sliceStr (t : Array Char) (a b : Nat) : String :=
  ⟨((t.toList.drop a).take (b - a))⟩

/-- `match.group(n)`: the text of the last binding of group `n`, or `none`
if the group did not participate in the match. -/
def capGroup (t : Array Char) (caps : Caps) (n : Nat) : Option String :=
  match caps.find? (fun c => c.1 = n) with
  | some (_, a, b) => some (sliceStr t a b)
  | none => none

/-! Pattern-building helpers (for transliterating the source regexes). -/

def rxStr (s : String) : Rx := (s.data.map Rx.lit).foldr Rx.seq .eps

def rxSeq (rs : List Rx) : Rx := rs.foldr Rx.seq .eps

def rxAlts (rs : List Rx) (dflt : Rx) : Rx :=
  match rs with
  | [] => dflt
  | [r] => r
  | r :: rest => .alt r (rxAlts rest dflt)

def rxDigit : Rx := .cls false [.digit]

def rxWs : Rx := .cls false [.space]

def rxStar (r : Rx) : Rx := .rep 0 none r

def rxPlus (r : Rx) : Rx := .rep 1 none r

def rxOpt (r : Rx) : Rx := .rep 0 (some 1) r

/-! ## `SalaryExtractor` (`utils/salary_extractor.py`)

The constructor's pattern table, in order.  Each entry is the transliterated
regex together with its currency tag and its number of capturing groups. -/

/-- `\d{1,3}(?:,\d{3})*` (thousands-separated number). -/
def rxThousands : Rx :=
  rxSeq [.rep 1 (some 3) rxDigit, rxStar (rxSeq [.lit ',', .rep 3 (some 3) rxDigit])]

/-- `[-–—]` (the dash alternatives accepted between the two amounts). -/
def rxDash : Rx := .cls false [.ch '-', .ch '–', .ch '—']

/-- `\d+[kK]?` -/
def rxAmountK : Rx := rxSeq [rxPlus rxDigit, rxOpt (.cls false [.ch 'k', .ch 'K'])]

/-- `\d+[kK]` (the `k` suffix is mandatory). -/
def rxAmountKReq : Rx := rxSeq [rxPlus rxDigit, .cls false [.ch 'k', .ch 'K']]

/-- A currency-symbol range pattern `sym(grp)\s*[-–—]\s*sym?(grp)`. -/
def rxSymRange (sym : Char) (grp : Rx) : Rx :=
  rxSeq [.lit sym, .group 0 grp, rxStar rxWs, rxDash, rxStar rxWs,
    rxOpt (.lit sym), .group 1 grp]

/-- `self.patterns` of `SalaryExtractor.__init__`: `(regex, currency, #groups)`. -/
def salaryPatterns : List (Rx × String × Nat) :=
  [ -- r'\$(\d+[kK]?)\s*[-–—]\s*\$?(\d+[kK]?)'
    (rxSymRange '$' rxAmountK, "USD", 2),
    -- r'\$(\d{1,3}(?:,\d{3})*)\s*[-–—]\s*\$?(\d{1,3}(?:,\d{3})*)'
    (rxSymRange '$' rxThousands, "USD", 2),
    -- r'[₹]?(\d+)\s*[-–—]\s*(\d+)\s*LPA'
    (rxSeq [rxOpt (.cls false [.ch '₹']), .group 0 (rxPlus rxDigit), rxStar rxWs,
      rxDash, rxStar rxWs, .group 1 (rxPlus rxDigit), rxStar rxWs, rxStr "LPA"],
     "INR", 2),
    -- r'[₹]?(\d+)\s*LPA'
    (rxSeq [rxOpt (.cls false [.ch '₹']), .group 0 (rxPlus rxDigit), rxStar rxWs,
      rxStr "LPA"],
     "INR", 1),
    -- r'€(\d+[kK]?)\s*[-–—]\s*€?(\d+[kK]?)'
    (rxSymRange '€' rxAmountK, "EUR", 2),
    -- r'€(\d{1,3}(?:,\d{3})*)\s*[-–—]\s*€?(\d{1,3}(?:,\d{3})*)'
    (rxSymRange '€' rxThousands, "EUR", 2),
    -- r'£(\d+[kK]?)\s*[-–—]\s*£?(\d+[kK]?)'
    (rxSymRange '£' rxAmountK, "GBP", 2),
    -- r'£(\d{1,3}(?:,\d{3})*)\s*[-–—]\s*£?(\d{1,3}(?:,\d{3})*)'
    (rxSymRange '£' rxThousands, "GBP", 2),
    -- r'(?<![$€£₹])(\d+[kK])\s*[-–—]\s*(\d+[kK])'
    (rxSeq [.nlb ['$', '€', '£', '₹'], .group 0 rxAmountKReq, rxStar rxWs,
      rxDash, rxStar rxWs, .group 1 rxAmountKReq],
     "USD", 2),
    -- r'(?<![$€£₹])(\d{1,3}(?:,\d{3})*)\s*[-–—]\s*(\d{1,3}(?:,\d{3})*)'
    (rxSeq [.nlb ['$', '€', '£', '₹'], .group 0 rxThousands, rxStar rxWs,
      rxDash, rxStar rxWs, .group 1 rxThousands],
     "USD", 2) ]

def parseNatDigits : List Char → Option Nat
  | [] => none
  | l => if l.all Char.isDigit then some (l.foldl (fun a c => a * 10 + c.toNat - 48) 0) else none

/-- `SalaryExtractor._normalize_amount`: strip commas, uppercase, interpret a
trailing `K` as thousands, and parse the rest as a number (`none` on failure). -/
def normalizeAmount (s : String) : Option Rat :=
  let cleaned := (s.data.filter (· ≠ ',')).map Char.toUpper
  match cleaned.getLast? with
  | some 'K' => (parseNatDigits (cleaned.dropLast)).map (fun n => ((n * 1000 : Nat) : Rat))
  | _ => (parseNatDigits cleaned).map (fun n => (n : Rat))

def currencySymbolRange (currency : String) : String :=
  if currency = "USD" then "$" else if currency = "EUR" then "€"
  else if currency = "GBP" then "£" else ""

def currencySymbolAll (currency : String) : String :=
  if currency = "USD" then "$" else if currency = "EUR" then "€"
  else if currency = "GBP" then "£" else if currency = "INR" then "₹" else ""

/-- The body of `SalaryExtractor.extract` applied to one regex match:
normalize the captured amounts and format the result (`none` continues with
the next match). -/
def salaryFromMatch (t : Array Char) (currency : String) (ngroups : Nat) (caps : Caps) :
    Option String :=
  if ngroups = 2 then
    match (capGroup t caps 0).bind normalizeAmount, (capGroup t caps 1).bind normalizeAmount with
    | some mn, some mx =>
        -- Python truthiness: a 0 amount is falsy and the match is skipped.
        if mn ≠ 0 ∧ mx ≠ 0 then
          if currency = "INR" ∧ mn ≥ 1000 then
            some ("₹" ++ fmtF1 (ratDivNat mn 100000) ++ "-" ++
              fmtF1 (ratDivNat mx 100000) ++ " LPA")
          else if mn ≥ 1000 then
            some (currencySymbolRange currency ++ fmtF0 (ratDivNat mn 1000) ++ "k-" ++
              fmtF0 (ratDivNat mx 1000) ++ "k")
          else
            some (currencySymbolAll currency ++ fmtF0 mn ++ "-" ++ fmtF0 mx)
        else none
    | _, _ => none
  else if ngroups = 1 then
    match (capGroup t caps 0).bind normalizeAmount with
    | some amt =>
        if amt ≠ 0 then
          if currency = "INR" ∧ amt ≥ 1000 then
            some ("₹" ++ fmtF1 (ratDivNat amt 100000) ++ " LPA")
          else if amt ≥ 1000 then
            some (currencySymbolRange currency ++ fmtF0 (ratDivNat amt 1000) ++ "k")
          else
            some (currencySymbolAll currency ++ fmtF0 amt)
        else none
    | none => none
  else none

def firstSomeOf {α β : Type} (l : List α) (f : α → Option β) : Option β :=
  match l with
  | [] => none
  | x :: rest =>
      match f x with
      | some y => some y
      | none => firstSomeOf rest f

/-- `SalaryExtractor.extract`.  (The `salary_keywords` check in the source
computes a flag and then falls through unconditionally — a no-op — so it has
no translation.)  Patterns are tried in order; for each, every `finditer`
match is tried in order; the first match whose amounts normalize to non-zero
numbers yields the formatted result. -/
def salaryExtract (text : String) : Option String :=
  if text = "" then none
  else
    let t := text.data.toArray
    firstSomeOf salaryPatterns fun p =>
      firstSomeOf (rxFindAll t p.1) fun m =>
        salaryFromMatch t p.2.1 p.2.2 m.2.2

/-! ## `datetime.strptime` (the subset of directives used by the source)

CPython's `_strptime` compiles the format to a case-insensitive regex
(`%d ↦ 3[01]|[12]\d|0[1-9]|[1-9]`, `%m ↦ 1[0-2]|0[1-9]|[1-9]`,
`%H ↦ 2[0-3]|[0-1]\d|\d`, `%M ↦ [0-5]\d|\d`, `%S ↦ 6[0-1]|[0-5]\d|\d`,
`%Y ↦ \d\d\d\d`, `%B`/`%b` ↦ month names longest-first, runs of whitespace
↦ `\s+`, other characters literal), requires the regex to consume the whole
string, then builds the `datetime` (which validates the combination and may
still raise, e.g. for Feb 30).  Each directive below produces its candidate
parses in the regex's alternative order and the format is matched with
backtracking, exactly as the compiled regex would. -/

inductive FmtD where
  | dirY | dirm | dird | dirH | dirM | dirS | dirB | dirb | ws | lit (c : Char)
deriving Repr, DecidableEq

/-- Candidate parses of a two-alternative-order numeric directive: each entry
is `(value, rest)` in the order the compiled regex tries them. -/
def twoDigitVal : List Char → Option (Nat × Nat × List Char)
  | c1 :: c2 :: rest =>
      if c1.isDigit && c2.isDigit then
        some ((c1.toNat - 48) * 10 + (c2.toNat - 48), c1.toNat - 48, rest)
      else none
  | _ => none

def oneDigitVal : List Char → Option (Nat × List Char)
  | c :: rest => if c.isDigit then some (c.toNat - 48, rest) else none
  | [] => none

/-- `%d`: `3[01]|[12]\d|0[1-9]|[1-9]`. -/
def dirdCands (l : List Char) : List (Nat × List Char) :=
  (match twoDigitVal l with
   | some (v, hi, rest) =>
       (if hi = 3 && (v = 30 || v = 31) then [(v, rest)] else []) ++
       (if hi = 1 || hi = 2 then [(v, rest)] else []) ++
       (if hi = 0 && v ≥ 1 then [(v, rest)] else [])
   | none => []) ++
  (match oneDigitVal l with
   | some (v, rest) => if v ≥ 1 then [(v, rest)] else []
   | none => [])

/-- `%m`: `1[0-2]|0[1-9]|[1-9]`. -/
def dirmCands (l : List Char) : List (Nat × List Char) :=
  (match twoDigitVal l with
   | some (v, hi, rest) =>
       (if hi = 1 && v ≤ 12 then [(v, rest)] else []) ++
       (if hi = 0 && v ≥ 1 then [(v, rest)] else [])
   | none => []) ++
  (match oneDigitVal l with
   | some (v, rest) => if v ≥ 1 then [(v, rest)] else []
   | none => [])

/-- `%H`: `2[0-3]|[0-1]\d|\d`. -/
def dirHCands (l : List Char) : List (Nat × List Char) :=
  (match twoDigitVal l with
   | some (v, hi, rest) =>
       (if hi = 2 && v ≤ 23 then [(v, rest)] else []) ++
       (if hi ≤ 1 then [(v, rest)] else [])
   | none => []) ++
  (match oneDigitVal l with
   | some (v, rest) => [(v, rest)]
   | none => [])

/-- `%M`: `[0-5]\d|\d`. -/
def dirMCands (l : List Char) : List (Nat × List Char) :=
  (match twoDigitVal l with
   | some (v, hi, rest) => if hi ≤ 5 then [(v, rest)] else []
   | none => []) ++
  (match oneDigitVal l with
   | some (v, rest) => [(v, rest)]
   | none => [])

/-- `%S`: `6[0-1]|[0-5]\d|\d` (60/61 pass the regex but fail construction). -/
def dirSCands (l : List Char) : List (Nat × List Char) :=
  (match twoDigitVal l with
   | some (v, hi, rest) =>
       (if hi = 6 && v ≤ 61 then [(v, rest)] else []) ++
       (if hi ≤ 5 then [(v, rest)] else [])
   | none => []) ++
  (match oneDigitVal l with
   | some (v, rest) => [(v, rest)]
   | none => [])

/-- `%Y`: exactly four digits. -/
def dirYCands (l : List Char) : List (Nat × List Char) :=
  match l with
  | a :: b :: c :: d :: rest =>
      if a.isDigit && b.isDigit && c.isDigit && d.isDigit then
        [((a.toNat - 48) * 1000 + (b.toNat - 48) * 100 + (c.toNat - 48) * 10 +
          (d.toNat - 48), rest)]
      else []
  | _ => []

def monthFullNames : List String :=
  ["january", "february", "march", "april", "may", "june", "july", "august",
   "september", "october", "november", "december"]

def monthAbbrNames : List String :=
  ["jan", "feb", "mar", "apr", "may", "jun", "jul", "aug", "sep", "oct",
   "nov", "dec"]

def ciPfxDrop (name : List Char) (l : List Char) : Option (List Char) :=
  match name, l with
  | [], rest => some rest
  | _ :: _, [] => none
  | c :: cs, h :: hs => if c.toLower = h.toLower then ciPfxDrop cs hs else none

/-- Stable insertion (longest first) used to model CPython's length-sorted
month-name alternation. -/
def insertByLen (x : Nat × String) : List (Nat × String) → List (Nat × String)
  | [] => [x]
  | y :: ys => if x.2.length ≤ y.2.length then y :: insertByLen x ys else x :: y :: ys

/-- Month-name directive: names are tried longest first (as CPython sorts
them, stably), case-insensitively; the value is the 1-based month index. -/
def monthCands (names : List String) (l : List Char) : List (Nat × List Char) :=
  let indexed := names.enum.map (fun p => (p.1 + 1, p.2))
  let ordered := indexed.foldl (fun acc x => insertByLen x acc) []
  ordered.filterMap fun p => (ciPfxDrop p.2.data l).map fun rest => (p.1, rest)

/-- Parsed directive values (missing values get `strptime` defaults). -/
structure PParts where
  y : Option Nat := none
  mo : Option Nat := none
  d : Option Nat := none
  h : Nat := 0
  mi : Nat := 0
  s : Nat := 0
deriving Repr, DecidableEq

def dirCands : FmtD → List Char → PParts → List (PParts × List Char)
  | .dirY, l, p => (dirYCands l).map fun c => ({ p with y := some c.1 }, c.2)
  | .dirm, l, p => (dirmCands l).map fun c => ({ p with mo := some c.1 }, c.2)
  | .dird, l, p => (dirdCands l).map fun c => ({ p with d := some c.1 }, c.2)
  | .dirH, l, p => (dirHCands l).map fun c => ({ p with h := c.1 }, c.2)
  | .dirM, l, p => (dirMCands l).map fun c => ({ p with mi := c.1 }, c.2)
  | .dirS, l, p => (dirSCands l).map fun c => ({ p with s := c.1 }, c.2)
  | .dirB, l, p => (monthCands monthFullNames l).map fun c => ({ p with mo := some c.1 }, c.2)
  | .dirb, l, p => (monthCands monthAbbrNames l).map fun c => ({ p with mo := some c.1 }, c.2)
  | .ws, l, p =>
      -- `\s+`, greedy: longest run first, at least one character.
      let run := (l.takeWhile isPySpace).length
      ((List.range run).map fun k => (p, l.drop (run - k)))
  | .lit c, l, p =>
      match l with
      | h :: rest => if c.toLower = h.toLower then [(p, rest)] else []
      | [] => []

/-- All full-format parses, in backtracking order (first = the one the
compiled regex commits to). -/
def runFmt : List FmtD → List Char → PParts → List PParts
  | [], l, p => if l = [] then [p] else []
  | f :: fs, l, p => (dirCands f l p).flatMap fun c => runFmt fs c.2 c.1

/-- Construct the `datetime`, validating as the constructor does. -/
def buildDT (p : PParts) : Option Int :=
  let y : Int := (p.y.getD 1900 : Nat)
  let mo := p.mo.getD 1
  let d := p.d.getD 1
  if 1 ≤ y && y ≤ 9999 && 1 ≤ mo && mo ≤ 12 && 1 ≤ d && d ≤ daysInMonth y mo &&
      p.h ≤ 23 && p.mi ≤ 59 && p.s ≤ 59 then
    some (daysFromCivil y mo d * 86400 + (p.h * 3600 + p.mi * 60 + p.s : Nat))
  else none

/-- `datetime.strptime(s, fmt)` (`none` = `ValueError`). -/
def pyStrptime (fmt : List FmtD) (s : String) : Option Int :=
  match runFmt fmt s.data {} with
  | [] => none
  | p :: _ => buildDT p

/-! The format strings appearing in the source, transliterated. -/

def fmtYmd : List FmtD := [.dirY, .lit '-', .dirm, .lit '-', .dird]

def fmtYmdHMS : List FmtD :=
  [.dirY, .lit '-', .dirm, .lit '-', .dird, .ws, .dirH, .lit ':', .dirM, .lit ':', .dirS]

def fmtMdySlash : List FmtD := [.dirm, .lit '/', .dird, .lit '/', .dirY]

def fmtDmySlash : List FmtD := [.dird, .lit '/', .dirm, .lit '/', .dirY]

def fmtBdY : List FmtD := [.dirB, .ws, .dird, .lit ',', .ws, .dirY]

def fmtbdY : List FmtD := [.dirb, .ws, .dird, .lit ',', .ws, .dirY]

def fmtdBY : List FmtD := [.dird, .ws, .dirB, .ws, .dirY]

def fmtdbY : List FmtD := [.dird, .ws, .dirb, .ws, .dirY]

def fmtDmyDash : List FmtD := [.dird, .lit '-', .dirm, .lit '-', .dirY]

def fmtMdyDash : List FmtD := [.dirm, .lit '-', .dird, .lit '-', .dirY]

def fmtBd : List FmtD := [.dirB, .ws, .dird]

def fmtbd : List FmtD := [.dirb, .ws, .dird]

/-! ## `DeadlineExtractor` (`utils/deadline_extractor.py`) -/

/-- `re.sub(r'(\d+)(st|nd|rd|th)', r'\1', s)` — case-sensitive (that `re.sub`
has no `IGNORECASE` flag), with a fuel argument for structural recursion
(`fuel = length + 1` always suffices: each step consumes at least one
character). -/
def ordinalSubF : Nat → List Char → List Char
  | 0, l => l
  | _ + 1, [] => []
  | fuel + 1, c :: rest =>
      if c.isDigit then
        let ds := (c :: rest).takeWhile Char.isDigit
        let tail := (c :: rest).dropWhile Char.isDigit
        match tail with
        | 's' :: 't' :: r2 => ds ++ ordinalSubF fuel r2
        | 'n' :: 'd' :: r2 => ds ++ ordinalSubF fuel r2
        | 'r' :: 'd' :: r2 => ds ++ ordinalSubF fuel r2
        | 't' :: 'h' :: r2 => ds ++ ordinalSubF fuel r2
        | _ => ds ++ ordinalSubF fuel tail
      else c :: ordinalSubF fuel rest

def ordinalSub (s : String) : String := ⟨ordinalSubF (s.data.length + 1) s.data⟩

/-- The `date_formats` list of `DeadlineExtractor._parse_date_string`. -/
def deadlineDateFormats : List (List FmtD) :=
  [fmtBdY, fmtbdY, fmtdBY, fmtdbY, fmtDmySlash, fmtMdySlash, fmtYmd,
   fmtDmyDash, fmtMdyDash]

/-- `DeadlineExtractor._parse_date_string`. -/
def parseDateString (fmtOpt : Option (List FmtD)) (s : String) : Option Int :=
  if s = "" then none
  else
    let s := pyStrip s
    let viaGiven :=
      match fmtOpt with
      | some f => pyStrptime f s
      | none => none
    match viaGiven with
    | some t => some t
    | none =>
        match firstSomeOf deadlineDateFormats (fun f => pyStrptime f s) with
        | some t => some t
        | none => firstSomeOf deadlineDateFormats (fun f => pyStrptime f (ordinalSub s))

/-- `DeadlineExtractor._parse_relative_deadline`, with the enclosing call's
exception handling made explicit: the outer `none` is an exception that
escapes (`OverflowError` from `timedelta`/`datetime` arithmetic, which the
method's own `except (ValueError, AttributeError)` does not catch — the
caller then skips the whole match); `some none` is an ordinary `None` return
(the caller falls through to absolute-date parsing); `some (some t)` is a
computed deadline. -/
def parseRelativeDeadline (now : Int) (amount unit : String) : Option (Option Int) :=
  match parseNatDigits amount.data with
  | none => some none
  | some n =>
      let u := unit.toLower
      let add (days : Int) : Option (Option Int) :=
        match tdDays days with
        | none => none
        | some s =>
            match dtCheckRange (now + s) with
            | none => none
            | some t => some (some t)
      if pySubstr "day" u then add (n : Int)
      else if pySubstr "week" u then add ((n : Int) * 7)
      else if pySubstr "month" u then add ((n : Int) * 30)
      else some none

/-- The absolute-date branch of one match in `DeadlineExtractor.extract`:
parse, normalize a year `< 2000` (which includes the 1900 default) to the
current year (a `ValueError` from `replace` skips the match), and format. -/
def deadlineAbsolute (now : Int) (fmtOpt : Option (List FmtD)) (dateStr : String) :
    Option String :=
  match parseDateString fmtOpt dateStr with
  | none => none
  | some dl =>
      if dtYear dl < 2000 then
        match dtReplaceYear dl (dtYear now) with
        | none => none
        | some dl2 => some (dtToIso dl2)
      else some (dtToIso dl)

def unitWords : List String := ["days", "day", "weeks", "week", "months", "month"]

/-- Handling of one regex match inside `DeadlineExtractor.extract`. -/
def deadlineExtractOne (now : Int) (t : Array Char) (fmtOpt : Option (List FmtD))
    (ngroups : Nat) (caps : Caps) : Option String :=
  let dateStr := (capGroup t caps 0).getD ""
  let unitG := if ngroups ≥ 2 then capGroup t caps 1 else none
  let isRel := match unitG with | some u => unitWords.contains u | none => false
  if isRel then
    match parseRelativeDeadline now dateStr (unitG.getD "") with
    | none => none
    | some (some dl) => some (dtToIso dl)
    | some none => deadlineAbsolute now fmtOpt dateStr
  else deadlineAbsolute now fmtOpt dateStr

/-! The pattern table of `DeadlineExtractor.__init__`. -/

/-- `[:\s]+` -/
def rxColonWs : Rx := rxPlus (.cls false [.ch ':', .space])

/-- `[A-Za-z]{3,9}` -/
def rxMonthWord : Rx := .rep 3 (some 9) (.cls false [.range 'A' 'Z', .range 'a' 'z'])

/-- `\d{1,2}` -/
def rxD12 : Rx := .rep 1 (some 2) rxDigit

/-- `\d{4}` -/
def rxD4 : Rx := .rep 4 (some 4) rxDigit

/-- `(?:apply\s+by|deadline|closes?|closing|due\s+date)` -/
def rxDeadlineCue1 : Rx :=
  rxAlts [rxSeq [rxStr "apply", rxPlus rxWs, rxStr "by"], rxStr "deadline",
    rxSeq [rxStr "close", rxOpt (.lit 's')], rxStr "closing",
    rxSeq [rxStr "due", rxPlus rxWs, rxStr "date"]] .eps

/-- `(?:apply\s+before|deadline|closes?|closing)` -/
def rxDeadlineCue4 : Rx :=
  rxAlts [rxSeq [rxStr "apply", rxPlus rxWs, rxStr "before"], rxStr "deadline",
    rxSeq [rxStr "close", rxOpt (.lit 's')], rxStr "closing"] .eps

/-- `(?:closes?|deadline|closing)` -/
def rxDeadlineCue6 : Rx :=
  rxAlts [rxSeq [rxStr "close", rxOpt (.lit 's')], rxStr "deadline",
    rxStr "closing"] .eps

/-- `(?:apply\s+by|deadline|closes?|closing|due\s+date)[:\s]+([A-Za-z]{3,9}\s+\d{1,2},?\s+\d{4})` -/
def rxDeadlinePat1 : Rx :=
  rxSeq [rxDeadlineCue1, rxColonWs,
    .group 0 (rxSeq [rxMonthWord, rxPlus rxWs, rxD12, rxOpt (.lit ','), rxPlus rxWs, rxD4])]

/-- The slash-or-dash numeric-date pattern: the dealine-cue alternation, then
`[:\s]+`, then a captured `\d{1,2}`, slash-or-dash, `\d{1,2}`, slash-or-dash,
`\d{4}`. -/
def rxDeadlinePat3 : Rx :=
  rxSeq [rxDeadlineCue1, rxColonWs,
    .group 0 (rxSeq [rxD12, .cls false [.ch '/', .ch '-'], rxD12,
      .cls false [.ch '/', .ch '-'], rxD4])]

/-- `(?:apply\s+before|deadline|closes?|closing)[:\s]+([A-Za-z]{3,9}\s+\d{1,2})` -/
def rxDeadlinePat4 : Rx :=
  rxSeq [rxDeadlineCue4, rxColonWs, .group 0 (rxSeq [rxMonthWord, rxPlus rxWs, rxD12])]

/-- `(?:closes?|deadline|closing)\s+in\s+(\d+)\s+(days?|weeks?|months?)` -/
def rxDeadlinePat6 : Rx :=
  rxSeq [rxDeadlineCue6, rxPlus rxWs, rxStr "in", rxPlus rxWs,
    .group 0 (rxPlus rxDigit), rxPlus rxWs,
    .group 1 (rxAlts [rxSeq [rxStr "day", rxOpt (.lit 's')],
      rxSeq [rxStr "week", rxOpt (.lit 's')],
      rxSeq [rxStr "month", rxOpt (.lit 's')]] .eps)]

/-- `last\s+date[:\s]+(\d{1,2}(?:st|nd|rd|th)?\s+[A-Za-z]{3,9},?\s+\d{4})` -/
def rxDeadlinePat7 : Rx :=
  rxSeq [rxStr "last", rxPlus rxWs, rxStr "date", rxColonWs,
    .group 0 (rxSeq [rxD12,
      rxOpt (rxAlts [rxStr "st", rxStr "nd", rxStr "rd", rxStr "th"] .eps),
      rxPlus rxWs, rxMonthWord, rxOpt (.lit ','), rxPlus rxWs, rxD4])]

/-- `self.patterns` of `DeadlineExtractor.__init__`: `(regex, format, #groups)`. -/
def deadlinePatterns : List (Rx × Option (List FmtD) × Nat) :=
  [ (rxDeadlinePat1, some fmtBdY, 1),
    (rxDeadlinePat1, some fmtbdY, 1),
    (rxDeadlinePat3, none, 1),
    (rxDeadlinePat4, some fmtBd, 1),
    (rxDeadlinePat4, some fmtbd, 1),
    (rxDeadlinePat6, none, 2),
    (rxDeadlinePat7, none, 1) ]

/-- The cue-phrase gate of `DeadlineExtractor.extract`. -/
def deadlineKeywords : List String :=
  ["deadline", "closes", "closing", "apply by", "due date", "last date"]

/-- `DeadlineExtractor.extract`. -/
def deadlineExtract (now : Int) (text : String) : Option String :=
  if text = "" then none
  else
    let textLower := pyLower text
    if deadlineKeywords.any (fun k => pySubstr k textLower) then
      let t := text.data.toArray
      firstSomeOf deadlinePatterns fun p =>
        firstSomeOf (rxFindAll t p.1) fun m =>
          deadlineExtractOne now t p.2.1 p.2.2 m.2.2
    else none

/-- `DeadlineExtractor.get_days_until_deadline`. -/
def getDaysUntilDeadline (now : Int) (deadlineStr : String) : Option Int :=
  if deadlineStr = "" then none
  else
    match pyStrptime fmtYmd deadlineStr with
    | none => none
    | some dl => some ((dl - now).fdiv 86400)

/-! ## Job records

The raw record produced by the source collaborators (all fields are strings;
`main.py` accesses them with `job.get(key, '') or ''`, so a well-formed keyed
record is exactly a value of this structure). -/

structure Job where
  title : String := ""
  company : String := ""
  location : String := ""
  url : String := ""
  experience : String := ""
  description : String := ""
  posted_date : String := ""
  source : String := ""
deriving Repr, DecidableEq

/-! ## `JobScorer` (`utils/job_scorer.py`)

The constructor state: `companies_metadata` (an insertion-ordered JSON
object mapping company name to a metadata object whose `tier` field may be
absent, here `company ↦ Option tier`) and the configured skills vocabulary
`YOUR_SKILLS` (external configuration data, per the design notes).  Both are
parameters of the embedding. -/

structure ScorerEnv where
  companiesMetadata : List (String × Option String) := []
  yourSkills : List String := []

/-- `self.user_skills = [skill.lower() for skill in YOUR_SKILLS] if YOUR_SKILLS else []`. -/
def envUserSkills (env : ScorerEnv) : List String :=
  if env.yourSkills = [] then [] else env.yourSkills.map pyLower

/-- The `date_formats` list of `JobScorer._parse_posted_date`. -/
def scorerDateFormats : List (List FmtD) :=
  [fmtYmd, fmtYmdHMS, fmtMdySlash, fmtDmySlash, fmtBdY, fmtbdY, fmtdBY, fmtdbY]

/-- `(\d+)\s*days?\s*ago` (and the `week`/`month` variants). -/
def rxAgoPattern (unit : String) : Rx :=
  rxSeq [.group 0 (rxPlus rxDigit), rxStar rxWs, rxStr unit, rxOpt (.lit 's'),
    rxStar rxWs, rxStr "ago"]

/-- `JobScorer._parse_posted_date`: the absolute formats in order, then the
relative "N days/weeks/months ago" patterns (each relative computation is
guarded by the `timedelta`/`datetime` range checks whose failure the source
catches and skips). -/
def parsePostedDate (now : Int) (postedDate : String) : Option Int :=
  if postedDate = "" then none
  else
    let pd := pyStrip postedDate
    match firstSomeOf scorerDateFormats (fun f => pyStrptime f pd) with
    | some t => some t
    | none =>
        let t := (pyLower pd).data.toArray
        let midnight := now.fdiv 86400 * 86400
        let tryRel (r : Rx) (mult : Int) : Option Int :=
          match rxSearch t r with
          | none => none
          | some m =>
              match (capGroup t m.2.2 0).bind (fun g => parseNatDigits g.data) with
              | none => none
              | some n =>
                  match tdDays ((n : Int) * mult) with
                  | none => none
                  | some s => dtCheckRange (midnight - s)
        match tryRel (rxAgoPattern "day") 1 with
        | some t2 => some t2
        | none =>
            match tryRel (rxAgoPattern "week") 7 with
            | some t2 => some t2
            | none => tryRel (rxAgoPattern "month") 30

/-- `JobScorer._calculate_days_since_posted`. -/
def calcDaysSincePosted (now : Int) (postedDate : String) : Option Int :=
  match parsePostedDate now postedDate with
  | none => none
  | some t => some (max 0 ((now - t).fdiv 86400))

/-- `JobScorer._get_freshness_indicator`. -/
def getFreshnessIndicator : Option Int → String
  | none => "Unknown"
  | some d =>
      if d ≤ 1 then "Fresh"
      else if d ≤ 7 then "Recent"
      else if d ≤ 14 then "Moderate"
      else "Old"

/-- `JobScorer._get_company_tier`: exact key, then case-insensitive, then
substring containment in either direction, in dict insertion order. -/
def getCompanyTier (md : List (String × Option String)) (company : String) :
    Option String :=
  if company = "" then none
  else
    match md.find? (fun p => p.1 = company) with
    | some p => p.2
    | none =>
        let companyLower := pyLower company
        match md.find? (fun p => pyLower p.1 = companyLower) with
        | some p => p.2
        | none =>
            match md.find? (fun p =>
                pySubstr (pyLower p.1) companyLower ||
                pySubstr companyLower (pyLower p.1)) with
            | some p => p.2
            | none => none

/-- `\b<escaped skill>\b` (the `re.escape` makes every character literal). -/
def skillWordRx (skill : String) : Rx :=
  rxSeq ([Rx.wordB] ++ skill.data.map Rx.lit ++ [Rx.wordB])

/-- `JobScorer._calculate_skills_match` (0–100; the `tech_keywords` table in
the source is built and never used, so it has no translation). -/
def calcSkillsMatch (userSkills : List String) (jobTitle jobDescription : String) :
    Rat :=
  if userSkills = [] then 0
  else
    let text := pyLower (jobTitle ++ " " ++ jobDescription)
    let mentioned := userSkills.filter (fun sk => rxTest (skillWordRx (pyLower sk)) text)
    let total := userSkills.length
    if total = 0 then 0
    -- (matched_count / total_skills) * 100, as an exact rational
    else min 100 (mkRat ((mentioned.length : Int) * 100) total)

/-- The `breakdown` dictionary of `JobScorer.calculate_score`
(keys `recency`, `company`, `salary`, `skills`). -/
structure ScoreBreakdown where
  recency : Int
  company : Int
  salaryPts : Int
  skills : Int
deriving Repr, DecidableEq

/-- The dictionary returned by `JobScorer.calculate_score`. -/
structure ScoreResult where
  score : Int
  days_since_posted : Option Int
  freshness : String
  salary : Option String
  deadline : Option String
  days_until_deadline : Option Int
  skills_match_pct : Rat
  company_tier : Option String
  breakdown : ScoreBreakdown
deriving Repr, DecidableEq

/-- `JobScorer.calculate_score`.  (`str(job.get(k, '') or '')` is the
identity on a typed record; the formatted salary/deadline strings are never
empty, so Python string truthiness on them coincides with `isSome`.) -/
def calculateScore (env : ScorerEnv) (now : Int) (job : Job) : ScoreResult :=
  let jobTitle := job.title
  let jobDescription := job.description
  let days := calcDaysSincePosted now job.posted_date
  let recencyScore : Int :=
    match days with
    | some d =>
        if d ≤ 1 then 40
        else if d ≤ 3 then 30
        else if d ≤ 7 then 20
        else if d ≤ 14 then 10
        else 0
    | none => 0
  let companyTier := getCompanyTier env.companiesMetadata job.company
  let companyScore : Int :=
    if companyTier = some "FAANG" then 30
    else if companyTier = some "unicorn" then 25
    else if companyTier = some "well_funded" then 15
    else 0
  let salary := salaryExtract (jobTitle ++ " " ++ jobDescription)
  let salaryScore : Int := if salary.isSome then 20 else 0
  let pct := calcSkillsMatch (envUserSkills env) jobTitle jobDescription
  let skillsScore : Int := pyTrunc (ratDivNat pct 10)
  let deadline := deadlineExtract now (jobTitle ++ " " ++ jobDescription)
  let daysUntil :=
    match deadline with
    | some d => getDaysUntilDeadline now d
    | none => none
  { score := min 100 (recencyScore + companyScore + salaryScore + skillsScore),
    days_since_posted := days,
    freshness := getFreshnessIndicator days,
    salary := salary,
    deadline := deadline,
    days_until_deadline := daysUntil,
    skills_match_pct := pyRound1 pct,
    company_tier := companyTier,
    breakdown :=
      { recency := recencyScore, company := companyScore,
        salaryPts := salaryScore, skills := skillsScore } }

/-! ## Configuration (`utils/config.py`) used by `JobFilter` -/

def SEARCH_TERMS : List String :=
  ["software engineer", "software developer", "software development engineer",
   "sde", "sde 1", "sde i", "junior software engineer", "graduate software engineer",
   "backend engineer", "backend developer", "frontend engineer", "frontend developer",
   "full stack engineer", "fullstack engineer", "full stack developer",
   "platform engineer", "devops engineer", "site reliability engineer", "sre",
   "data engineer", "analytics engineer", "machine learning engineer", "ml engineer",
   "data scientist", "android engineer", "android developer", "ios engineer",
   "ios developer", "mobile engineer", "mobile developer"]

def INDIA_LOCATIONS : List String :=
  ["india", "remote", "work from home", "wfh", "bangalore", "bengaluru", "mumbai",
   "delhi", "hyderabad", "pune", "chennai", "gurgaon", "gurugram", "noida",
   "kolkata", "ahmedabad", "dubai", "uae", "united arab emirates", "abu dhabi",
   "saudi arabia", "riyadh", "qatar", "doha", "kuwait", "bahrain", "oman",
   "muscat", "gulf", "middle east"]

def EXPERIENCE_LEVELS : List String :=
  ["fresher", "0 years", "0-1 years", "0-2 years", "0-3 years", "1 year",
   "1 years", "1-2 years", "1-3 years", "2 years", "2-3 years", "3 years"]

def EXCLUDE_KEYWORDS : List String := ["intern", "internship"]

/-! ## `JobFilter` (`filters/job_filter.py`)

The constructor lowercases the four configuration lists once. -/

def searchTerms : List String := SEARCH_TERMS.map pyLower

def filterLocations : List String := INDIA_LOCATIONS.map pyLower

def experienceLevels : List String := EXPERIENCE_LEVELS.map pyLower

def excludeKeywords : List String := EXCLUDE_KEYWORDS.map pyLower

/-- `JobFilter.matches_role`. -/
def matchesRole (jobTitle jobDescription : String) : Bool :=
  let text := pyLower (jobTitle ++ " " ++ jobDescription)
  searchTerms.any fun term => pySubstr term text

/-- `JobFilter.matches_location` (present in the source; its call in
`filter_job` is commented out, so it does not take part in filtering). -/
def matchesLocation (location : String) : Bool :=
  if location = "" then false
  else
    let locationLower := pyLower location
    filterLocations.any fun loc => pySubstr loc locationLower

/-- The `experience_patterns` list of `JobFilter.is_experience_eligible`. -/
def experiencePatterns : List Rx :=
  [ -- r'\b(0|zero)\s*(to|-)?\s*[1-2]\s*(years?|yrs?)\b'
    rxSeq [.wordB, .group 0 (.alt (rxStr "0") (rxStr "zero")), rxStar rxWs,
      rxOpt (.group 1 (.alt (rxStr "to") (rxStr "-"))), rxStar rxWs,
      .cls false [.range '1' '2'], rxStar rxWs,
      .group 2 (.alt (rxSeq [rxStr "year", rxOpt (.lit 's')])
        (rxSeq [rxStr "yr", rxOpt (.lit 's')])), .wordB],
    -- r'\b[1-5]\+\s*(years?|yrs?)\b'
    rxSeq [.wordB, .cls false [.range '1' '5'], .lit '+', rxStar rxWs,
      .group 0 (.alt (rxSeq [rxStr "year", rxOpt (.lit 's')])
        (rxSeq [rxStr "yr", rxOpt (.lit 's')])), .wordB],
    -- r'\b[1-5]\s*(to|-)\s*[1-9]\s*(years?|yrs?)\b'
    rxSeq [.wordB, .cls false [.range '1' '5'], rxStar rxWs,
      .group 0 (.alt (rxStr "to") (rxStr "-")), rxStar rxWs,
      .cls false [.range '1' '9'], rxStar rxWs,
      .group 1 (.alt (rxSeq [rxStr "year", rxOpt (.lit 's')])
        (rxSeq [rxStr "yr", rxOpt (.lit 's')])), .wordB],
    -- r'\bfresher\b'
    rxSeq [.wordB, rxStr "fresher", .wordB],
    -- r'\bentry\s*level\b'
    rxSeq [.wordB, rxStr "entry", rxStar rxWs, rxStr "level", .wordB],
    -- r'\bjunior\b'
    rxSeq [.wordB, rxStr "junior", .wordB] ]

/-- The `senior_patterns` list of `JobFilter.is_experience_eligible`. -/
def seniorPatterns : List Rx :=
  [ -- r'\b[4-9]\+\s*(years?|yrs?)\b'
    rxSeq [.wordB, .cls false [.range '4' '9'], .lit '+', rxStar rxWs,
      .group 0 (.alt (rxSeq [rxStr "year", rxOpt (.lit 's')])
        (rxSeq [rxStr "yr", rxOpt (.lit 's')])), .wordB],
    -- r'\b(1[0-9]|[2-9][0-9])\+\s*(years?|yrs?)\b'
    rxSeq [.wordB,
      .group 0 (.alt (rxSeq [.lit '1', .cls false [.range '0' '9']])
        (rxSeq [.cls false [.range '2' '9'], .cls false [.range '0' '9']])),
      .lit '+', rxStar rxWs,
      .group 1 (.alt (rxSeq [rxStr "year", rxOpt (.lit 's')])
        (rxSeq [rxStr "yr", rxOpt (.lit 's')])), .wordB],
    rxSeq [.wordB, rxStr "senior", .wordB],
    rxSeq [.wordB, rxStr "lead", .wordB],
    rxSeq [.wordB, rxStr "principal", .wordB],
    rxSeq [.wordB, rxStr "architect", .wordB] ]

/-- r'\b([1-3])\s*(years?|yrs?)\b' -/
def reasonableExpPattern : Rx :=
  rxSeq [.wordB, .group 0 (.cls false [.range '1' '3']), rxStar rxWs,
    .group 1 (.alt (rxSeq [rxStr "year", rxOpt (.lit 's')])
      (rxSeq [rxStr "yr", rxOpt (.lit 's')])), .wordB]

/-- `JobFilter.is_experience_eligible`. -/
def isExperienceEligible (jobTitle jobDescription : String) : Bool :=
  let text := pyLower (jobTitle ++ " " ++ jobDescription)
  -- the internship-exclusion loop: reject when some exclude keyword occurs
  -- and neither "full-time" nor "permanent" occurs
  if excludeKeywords.any (fun kw =>
      pySubstr kw text &&
      !(pySubstr "full-time" text || pySubstr "permanent" text)) then
    false
  else
    let hasExperienceMention := experiencePatterns.any fun p => rxTest p text
    if !hasExperienceMention then
      -- no explicit experience mentioned: assume eligible
      true
    else if experienceLevels.any (fun e => pySubstr e text) then
      true
    else if seniorPatterns.any (fun p => rxTest p text) then
      false
    else if rxTest reasonableExpPattern text then
      true
    else
      true

/-- `JobFilter.filter_job` (location filtering is commented out in the
source; a typed record is always a well-formed dict, so the
`isinstance` guard is vacuous here). -/
def filterJob (job : Job) : Bool :=
  let jobTitle := pyLower job.title
  let jobDescription := pyLower job.description
  if !matchesRole jobTitle jobDescription then false
  else if !isExperienceEligible jobTitle jobDescription then false
  else true

/-- `JobFilter.filter_jobs`. -/
def filterJobs (jobs : List Job) : List Job :=
  jobs.filter filterJob

/-! ## Orchestrator stages of `main.py` -/

/-- The dedup loop of `main` (lines 378–392): `seen_urls` starts as the
persisted URL set; a record survives iff its stripped URL is non-empty and
not yet seen, and then its URL becomes seen. -/
def dedupLoop (seen : List String) : List Job → List Job
  | [] => []
  | job :: rest =>
      let jobUrl := pyStrip job.url
      if jobUrl ≠ "" ∧ jobUrl ∉ seen then
        job :: dedupLoop (jobUrl :: seen) rest
      else
        dedupLoop seen rest

/-- `main`'s duplicate removal: `seen_urls = set(existing_urls)` then the
loop above. -/
def removeDuplicateJobs (existingUrls : List String) (jobs : List Job) : List Job :=
  dedupLoop existingUrls jobs

/-- A scored record as built by `main`'s scoring loop: the original record
with the computed fields attached. -/
structure ScoredJob extends Job where
  priority_score : Int := 0
  days_since_posted : Option Int := none
  freshness : String := "Unknown"
  salary : Option String := none
  deadline : Option String := none
  days_until_deadline : Option Int := none
  skills_match_pct : Rat := 0
deriving Repr, DecidableEq

/-- One iteration of `main`'s scoring loop (lines 402–424): scoring never
fails (`calculateScore` is total, matching §4.4's never-raises contract), so
the `except` fallback branch is unreachable. -/
def attachScore (env : ScorerEnv) (now : Int) (job : Job) : ScoredJob :=
  let scoreData := calculateScore env now job
  { toJob := job,
    priority_score := scoreData.score,
    days_since_posted := scoreData.days_since_posted,
    freshness := scoreData.freshness,
    salary := scoreData.salary,
    deadline := scoreData.deadline,
    days_until_deadline := scoreData.days_until_deadline,
    skills_match_pct := scoreData.skills_match_pct }

def scoreJobs (env : ScorerEnv) (now : Int) (jobs : List Job) : List ScoredJob :=
  jobs.map (attachScore env now)

/-- The sort key comparison of `main` (lines 426–430):
`key = (-priority_score, days_since_posted if not None else 999)`, compared
lexicographically; `le` is the ≤ of that key. -/
def sortKeyLe (a b : ScoredJob) : Bool :=
  decide (b.priority_score < a.priority_score ∨
    (a.priority_score = b.priority_score ∧
      a.days_since_posted.getD 999 ≤ b.days_since_posted.getD 999))

/-- `scored_jobs.sort(key=...)`: Python's `list.sort` is a stable sort by
the key, which is extensionally `mergeSort` with the key's `≤`. -/
def sortScoredJobs (jobs : List ScoredJob) : List ScoredJob :=
  jobs.mergeSort sortKeyLe

/-! ## Shared lemmas -/

theorem ratFloor_eq_intFloor (q : Rat) : q.floor = ⌊q⌋ := rfl

theorem ratMulNat_eq (q : Rat) (k : Nat) : ratMulNat q k = q * (k : Rat) := by
  unfold ratMulNat
  rw [Rat.mkRat_eq_div]
  push_cast
  rw [mul_div_right_comm, Rat.num_div_den]

theorem ratDivNat_eq (q : Rat) (k : Nat) : ratDivNat q k = q / (k : Rat) := by
  unfold ratDivNat
  rw [Rat.mkRat_eq_div]
  rcases Nat.eq_zero_or_pos k with rfl | hk
  · simp
  · push_cast
    rw [div_mul_eq_div_div, Rat.num_div_den]

theorem pyTrunc_eq_floor {q : Rat} (h : 0 ≤ q) : pyTrunc q = ⌊q⌋ := by
  unfold pyTrunc
  rw [Rat.floor_def]
  exact Int.tdiv_eq_ediv (Rat.num_nonneg.mpr h) (by positivity)

theorem calcSkillsMatch_nonneg (us : List String) (t d : String) :
    0 ≤ calcSkillsMatch us t d := by
  simp only [calcSkillsMatch]
  split
  · exact le_refl 0
  · split
    · exact le_refl 0
    · refine le_min (by norm_num) ?_
      rw [Rat.mkRat_eq_div]
      positivity

theorem calcSkillsMatch_le_100 (us : List String) (t d : String) :
    calcSkillsMatch us t d ≤ 100 := by
  simp only [calcSkillsMatch]
  split
  · norm_num
  · split
    · norm_num
    · exact min_le_left _ _

/-! Definitional projections of `calculateScore` (each holds by unfolding). -/

theorem calculateScore_score_eq (env : ScorerEnv) (now : Int) (job : Job) :
    (calculateScore env now job).score =
      min 100 ((calculateScore env now job).breakdown.recency +
        (calculateScore env now job).breakdown.company +
        (calculateScore env now job).breakdown.salaryPts +
        (calculateScore env now job).breakdown.skills) := rfl

theorem calculateScore_recency_eq (env : ScorerEnv) (now : Int) (job : Job) :
    (calculateScore env now job).breakdown.recency =
      (match calcDaysSincePosted now job.posted_date with
       | some d =>
           if d ≤ 1 then (40 : Int)
           else if d ≤ 3 then 30
           else if d ≤ 7 then 20
           else if d ≤ 14 then 10
           else 0
       | none => 0) := rfl

theorem calculateScore_company_eq (env : ScorerEnv) (now : Int) (job : Job) :
    (calculateScore env now job).breakdown.company =
      (if getCompanyTier env.companiesMetadata job.company = some "FAANG" then (30 : Int)
       else if getCompanyTier env.companiesMetadata job.company = some "unicorn" then 25
       else if getCompanyTier env.companiesMetadata job.company = some "well_funded" then 15
       else 0) := rfl

theorem calculateScore_salaryPts_eq (env : ScorerEnv) (now : Int) (job : Job) :
    (calculateScore env now job).breakdown.salaryPts =
      (if (salaryExtract (job.title ++ " " ++ job.description)).isSome then (20 : Int)
       else 0) := rfl

theorem calculateScore_skills_eq (env : ScorerEnv) (now : Int) (job : Job) :
    (calculateScore env now job).breakdown.skills =
      pyTrunc (ratDivNat (calcSkillsMatch (envUserSkills env) job.title job.description) 10) :=
  rfl

theorem recencyVal_mem (dOpt : Option Int) :
    (match dOpt with
     | some d =>
         if d ≤ 1 then (40 : Int)
         else if d ≤ 3 then 30
         else if d ≤ 7 then 20
         else if d ≤ 14 then 10
         else 0
     | none => 0) ∈ ([0, 10, 20, 30, 40] : List Int) := by
  rcases dOpt with _ | d
  · simp
  · simp only []
    split_ifs <;> simp

theorem companyVal_mem (tier : Option String) :
    (if tier = some "FAANG" then (30 : Int)
     else if tier = some "unicorn" then 25
     else if tier = some "well_funded" then 15
     else 0) ∈ ([0, 15, 25, 30] : List Int) := by
  split_ifs <;> simp

theorem salaryVal_mem (b : Bool) :
    (if b then (20 : Int) else 0) ∈ ([0, 20] : List Int) := by
  cases b <;> simp

/-- **C1.** For every job record, `JobScorer.calculate_score` returns a score
with `0 ≤ score ≤ 100`, equal to `min 100 (recency + company + salary +
skills)`, with `recency ∈ {0,10,20,30,40}`, `company ∈ {0,15,25,30}`,
`salary ∈ {0,20}`, and `skills = ⌊skills_match_pct / 10⌋ ∈ [0,10]` (the
skills-match percentage lies in `[0,100]`). -/
theorem claim_C1_score_bounds (env : ScorerEnv) (now : Int) (job : Job) :
    (calculateScore env now job).score =
      min 100 ((calculateScore env now job).breakdown.recency +
        (calculateScore env now job).breakdown.company +
        (calculateScore env now job).breakdown.salaryPts +
        (calculateScore env now job).breakdown.skills) ∧
    (calculateScore env now job).breakdown.recency ∈ ([0, 10, 20, 30, 40] : List Int) ∧
    (calculateScore env now job).breakdown.company ∈ ([0, 15, 25, 30] : List Int) ∧
    (calculateScore env now job).breakdown.salaryPts ∈ ([0, 20] : List Int) ∧
    (calculateScore env now job).breakdown.skills =
      ⌊calcSkillsMatch (envUserSkills env) job.title job.description / 10⌋ ∧
    0 ≤ (calculateScore env now job).breakdown.skills ∧
    (calculateScore env now job).breakdown.skills ≤ 10 ∧
    0 ≤ (calculateScore env now job).score ∧
    (calculateScore env now job).score ≤ 100 := by
  have hpct0 := calcSkillsMatch_nonneg (envUserSkills env) job.title job.description
  have hpct100 := calcSkillsMatch_le_100 (envUserSkills env) job.title job.description
  have hdiv0 : (0 : Rat) ≤ calcSkillsMatch (envUserSkills env) job.title job.description / 10 := by
    positivity
  have hskfloor : (calculateScore env now job).breakdown.skills =
      ⌊calcSkillsMatch (envUserSkills env) job.title job.description / 10⌋ := by
    rw [calculateScore_skills_eq, ratDivNat_eq, show ((10 : Nat) : Rat) = 10 from rfl,
      pyTrunc_eq_floor hdiv0]
  have hsk0 : 0 ≤ (calculateScore env now job).breakdown.skills := by
    rw [hskfloor]
    exact Int.floor_nonneg.mpr hdiv0
  have hsk10 : (calculateScore env now job).breakdown.skills ≤ 10 := by
    rw [hskfloor]
    calc ⌊calcSkillsMatch (envUserSkills env) job.title job.description / 10⌋
        ≤ ⌊(10 : Rat)⌋ := by
          apply Int.floor_le_floor
          linarith
      _ = 10 := by norm_num
  have hr : (calculateScore env now job).breakdown.recency ∈ ([0, 10, 20, 30, 40] : List Int) := by
    rw [calculateScore_recency_eq]
    exact recencyVal_mem _
  have hc : (calculateScore env now job).breakdown.company ∈ ([0, 15, 25, 30] : List Int) := by
    rw [calculateScore_company_eq]
    exact companyVal_mem _
  have hs : (calculateScore env now job).breakdown.salaryPts ∈ ([0, 20] : List Int) := by
    rw [calculateScore_salaryPts_eq]
    exact salaryVal_mem _
  have hrB : 0 ≤ (calculateScore env now job).breakdown.recency ∧
      (calculateScore env now job).breakdown.recency ≤ 40 := by
    have hr2 := hr
    simp only [List.mem_cons, List.not_mem_nil, or_false] at hr2
    rcases hr2 with h | h | h | h | h <;> omega
  have hcB : 0 ≤ (calculateScore env now job).breakdown.company ∧
      (calculateScore env now job).breakdown.company ≤ 30 := by
    have hc2 := hc
    simp only [List.mem_cons, List.not_mem_nil, or_false] at hc2
    rcases hc2 with h | h | h | h <;> omega
  have hsB : 0 ≤ (calculateScore env now job).breakdown.salaryPts ∧
      (calculateScore env now job).breakdown.salaryPts ≤ 20 := by
    have hs2 := hs
    simp only [List.mem_cons, List.not_mem_nil, or_false] at hs2
    rcases hs2 with h | h <;> omega
  refine ⟨calculateScore_score_eq env now job, hr, hc, hs, hskfloor, hsk0, hsk10, ?_, ?_⟩
  · rw [calculateScore_score_eq]
    omega
  · rw [calculateScore_score_eq]
    omega

/-- **C7.** For every input text, if none of the six cue phrases appears
(case-insensitively) in the text, `DeadlineExtractor.extract` returns `none`
without attempting any date-pattern match (the pattern loop is in the branch
guarded by the cue check). -/
theorem claim_C7_deadline_cue_gate (now : Int) (text : String)
    (h : ∀ k ∈ deadlineKeywords, pySubstr k (pyLower text) = false) :
    deadlineExtract now text = none := by
  unfold deadlineExtract
  split
  · rfl
  · rw [if_neg]
    intro hany
    rw [List.any_eq_true] at hany
    obtain ⟨k, hk, hsub⟩ := hany
    rw [h k hk] at hsub
    exact Bool.false_ne_true hsub

/-- Witness for C7 at the spec's own example text. -/
theorem claim_C7_deadline_cue_gate_witness :
    deadlineExtract 0 "great opportunity, no rush" = none :=
  claim_C7_deadline_cue_gate 0 "great opportunity, no rush" (by decide)

/-- **C8.** Filtering is idempotent: `filter_jobs (filter_jobs records) =
filter_jobs records` for every finite list of records. -/
theorem claim_C8_filter_idempotent (jobs : List Job) :
    filterJobs (filterJobs jobs) = filterJobs jobs := by
  simp [filterJobs, List.filter_filter]

/-- **C9.** `JobScorer.calculate_score` (as used by `main`'s scoring loop,
which attaches the computed fields to the record) leaves every original
`JobRecord` field of its input unchanged. -/
theorem claim_C9_scoring_preserves_fields (env : ScorerEnv) (now : Int) (job : Job) :
    (attachScore env now job).title = job.title ∧
    (attachScore env now job).company = job.company ∧
    (attachScore env now job).location = job.location ∧
    (attachScore env now job).url = job.url ∧
    (attachScore env now job).experience = job.experience ∧
    (attachScore env now job).description = job.description ∧
    (attachScore env now job).posted_date = job.posted_date ∧
    (attachScore env now job).source = job.source :=
  ⟨rfl, rfl, rfl, rfl, rfl, rfl, rfl, rfl⟩

/-! Lemmas about the dedup loop (generalized over the running seen set). -/

theorem dedupLoop_mem (jobs : List Job) : ∀ (seen : List String), ∀ j ∈ dedupLoop seen jobs,
    pyStrip j.url ∉ seen ∧ pyStrip j.url ≠ "" := by
  induction jobs with
  | nil =>
      intro seen j hj
      simp [dedupLoop] at hj
  | cons job rest ih =>
      intro seen j hj
      simp only [dedupLoop] at hj
      split at hj
      case isTrue h =>
        rcases List.mem_cons.mp hj with rfl | hmem
        · exact ⟨h.2, h.1⟩
        · have hrec := ih (pyStrip job.url :: seen) j hmem
          exact ⟨fun hs => hrec.1 (List.mem_cons_of_mem _ hs), hrec.2⟩
      case isFalse h => exact ih seen j hj

theorem dedupLoop_nodup (jobs : List Job) : ∀ seen : List String,
    ((dedupLoop seen jobs).map (fun j => pyStrip j.url)).Nodup := by
  induction jobs with
  | nil =>
      intro seen
      simp [dedupLoop]
  | cons job rest ih =>
      intro seen
      simp only [dedupLoop]
      split
      case isTrue h =>
        simp only [List.map_cons, List.nodup_cons]
        refine ⟨?_, ih _⟩
        intro hmem
        rw [List.mem_map] at hmem
        obtain ⟨j, hj, hurl⟩ := hmem
        exact (dedupLoop_mem rest _ j hj).1 (by rw [hurl]; exact List.mem_cons_self _ _)
      case isFalse h => exact ih seen

theorem dedupLoop_complete (jobs : List Job) : ∀ (seen : List String) (j : Job), j ∈ jobs →
    pyStrip j.url ≠ "" → pyStrip j.url ∉ seen →
    ∃ k ∈ dedupLoop seen jobs, pyStrip k.url = pyStrip j.url := by
  induction jobs with
  | nil =>
      intro seen j hj
      simp at hj
  | cons job rest ih =>
      intro seen j hj hne hnotin
      simp only [dedupLoop]
      split
      case isTrue h =>
        rcases List.mem_cons.mp hj with rfl | hmem
        · exact ⟨j, List.mem_cons_self _ _, rfl⟩
        · by_cases heq : pyStrip j.url = pyStrip job.url
          · exact ⟨job, List.mem_cons_self _ _, heq.symm⟩
          · obtain ⟨k, hk, hkurl⟩ := ih (pyStrip job.url :: seen) j hmem hne (by
              intro hmem2
              rcases List.mem_cons.mp hmem2 with h2 | h2
              · exact heq h2
              · exact hnotin h2)
            exact ⟨k, List.mem_cons_of_mem _ hk, hkurl⟩
      case isFalse h =>
        rcases List.mem_cons.mp hj with rfl | hmem
        · exact absurd ⟨hne, hnotin⟩ h
        · exact ih seen j hmem hne hnotin

theorem dedupLoop_first (jobs : List Job) : ∀ (seen : List String) (k : Job),
    k ∈ dedupLoop seen jobs →
    jobs.find? (fun j => pyStrip j.url == pyStrip k.url) = some k := by
  induction jobs with
  | nil =>
      intro seen k hk
      simp [dedupLoop] at hk
  | cons job rest ih =>
      intro seen k hk
      simp only [dedupLoop] at hk
      split at hk
      case isTrue h =>
        rcases List.mem_cons.mp hk with rfl | hmem
        · exact List.find?_cons_of_pos _ (by simp)
        · have hne : pyStrip job.url ≠ pyStrip k.url := by
            intro he
            exact (dedupLoop_mem rest _ k hmem).1 (by rw [← he]; exact List.mem_cons_self _ _)
          rw [List.find?_cons_of_neg _ (by simp [hne])]
          exact ih _ k hmem
      case isFalse h =>
        have hk2 := dedupLoop_mem rest seen k hk
        have hne : pyStrip job.url ≠ pyStrip k.url := by
          intro he
          rcases not_and_or.mp h with h1 | h1
          · exact hk2.2 (by rw [← he]; exact not_not.mp h1)
          · exact hk2.1 (by rw [← he]; exact not_not.mp h1)
        rw [List.find?_cons_of_neg _ (by simp [hne])]
        exact ih seen k hk

/-- **C2.** In the orchestrator's dedup stage: the surviving records have
pairwise-distinct trimmed URLs; every survivor's trimmed URL is non-empty and
not in the persisted existing-URL set; every input record whose trimmed URL
is eligible (non-empty, not persisted) is represented by exactly one survivor
with that URL; and each survivor is the first occurrence of its trimmed URL
in iteration order. -/
theorem claim_C2_dedup_correct (existingUrls : List String) (jobs : List Job) :
    ((removeDuplicateJobs existingUrls jobs).map (fun j => pyStrip j.url)).Nodup ∧
    (∀ j ∈ removeDuplicateJobs existingUrls jobs,
      pyStrip j.url ∉ existingUrls ∧ pyStrip j.url ≠ "") ∧
    (∀ j ∈ jobs, pyStrip j.url ≠ "" → pyStrip j.url ∉ existingUrls →
      ∃ k ∈ removeDuplicateJobs existingUrls jobs, pyStrip k.url = pyStrip j.url) ∧
    (∀ k ∈ removeDuplicateJobs existingUrls jobs,
      jobs.find? (fun j => pyStrip j.url == pyStrip k.url) = some k) :=
  ⟨dedupLoop_nodup jobs existingUrls,
   fun j hj => dedupLoop_mem jobs existingUrls j hj,
   fun j hj hne hnotin => dedupLoop_complete jobs existingUrls j hj hne hnotin,
   fun k hk => dedupLoop_first jobs existingUrls k hk⟩

/-- Witness for C2: a concrete run (one persisted URL, a duplicate, an empty
URL) on which the existence part is instantiated. -/
theorem claim_C2_dedup_correct_witness :
    ∃ k ∈ removeDuplicateJobs ["http://a"]
      [{ url := " http://a " }, { url := "http://b" }, { url := "http://b " }, { url := "" }],
      pyStrip k.url = pyStrip ({ url := "http://b" } : Job).url :=
  (claim_C2_dedup_correct ["http://a"]
      [{ url := " http://a " }, { url := "http://b" }, { url := "http://b " }, { url := "" }]).2.2.1
    { url := "http://b" } (by simp) (by decide) (by decide)

/-! ## C5: ordering of the final output -/

theorem sortKeyLe_trans (a b c : ScoredJob) :
    sortKeyLe a b → sortKeyLe b c → sortKeyLe a c := by
  simp only [sortKeyLe, decide_eq_true_eq]
  intro hab hbc
  rcases hab with h1 | ⟨h1, h2⟩ <;> rcases hbc with h3 | ⟨h3, h4⟩
  · left; omega
  · left; omega
  · left; omega
  · right; constructor
    · omega
    · omega

theorem sortKeyLe_total (a b : ScoredJob) : sortKeyLe a b || sortKeyLe b a := by
  simp only [sortKeyLe, Bool.or_eq_true, decide_eq_true_eq]
  omega

/-- The tie-break relation asserted by the claim's own words: a missing
`days_since_posted` is greater than every non-null value. -/
def specMissingWorstLe : Option Int → Option Int → Prop
  | none, none => True
  | none, some _ => False
  | some _, none => True
  | some x, some y => x ≤ y

/-- The claim's property of the orchestrator's sorted output: every adjacent
pair is ordered by (score descending, then days ascending with missing
treated as greater than every non-null value). -/
def specSortedAsClaimed (l : List ScoredJob) : Prop :=
  (sortScoredJobs l).Pairwise fun a b =>
    b.priority_score < a.priority_score ∨
    (a.priority_score = b.priority_score ∧
      specMissingWorstLe a.days_since_posted b.days_since_posted)

/-- **C5, counterexample.** The code maps a missing `days_since_posted` to
the sentinel `999`, so in a score tie a record with missing days sorts
*before* a record with `days_since_posted = 1000` — the claimed
null-is-worst ordering fails on this two-record input. -/
theorem claim_C5_counterexample :
    ¬ specSortedAsClaimed
      [{ priority_score := 50, days_since_posted := none },
       { priority_score := 50, days_since_posted := some 1000 }] := by
  intro h
  unfold specSortedAsClaimed at h
  rw [show sortScoredJobs
        [{ priority_score := 50, days_since_posted := none },
         { priority_score := 50, days_since_posted := some 1000 }] =
      [{ priority_score := 50, days_since_posted := none },
       { priority_score := 50, days_since_posted := some 1000 }] from
    List.mergeSort_of_sorted (List.pairwise_cons.mpr
      ⟨fun b hb => by
          rcases List.mem_cons.mp hb with rfl | hb2
          · decide
          · simp at hb2,
        List.pairwise_singleton _ _⟩)] at h
  rcases List.pairwise_cons.mp h with ⟨hrel, _⟩
  rcases hrel _ (List.mem_cons_self _ _) with h1 | ⟨h2, h3⟩
  · simp at h1
  · exact h3

/-- **C5, amended.** The orchestrator's output is sorted by
(`priority_score` descending, then `days_since_posted` ascending with a
missing value treated as the sentinel 999): every adjacent pair satisfies
that order. -/
theorem claim_C5_sorted_by_key (l : List ScoredJob) :
    (sortScoredJobs l).Pairwise fun a b =>
      b.priority_score < a.priority_score ∨
      (a.priority_score = b.priority_score ∧
        a.days_since_posted.getD 999 ≤ b.days_since_posted.getD 999) := by
  have h := List.sorted_mergeSort sortKeyLe_trans sortKeyLe_total l
  exact h.imp fun hab => by simpa [sortKeyLe, decide_eq_true_eq] using hab

/-- **C6.** `JobScorer.calculate_score` is total on well-formed keyed
records (the embedding of every fallible component returns its zero/null
default instead of propagating), and when every component fails — the posted
date does not parse, the company has no tier metadata, no salary or deadline
is extractable, the skills vocabulary is empty — the call still returns the
complete all-defaults result. -/
theorem claim_C6_score_never_fails (env : ScorerEnv) (now : Int) (job : Job)
    (hdate : parsePostedDate now job.posted_date = none)
    (htier : getCompanyTier env.companiesMetadata job.company = none)
    (hsal : salaryExtract (job.title ++ " " ++ job.description) = none)
    (hskills : env.yourSkills = [])
    (hddl : deadlineExtract now (job.title ++ " " ++ job.description) = none) :
    calculateScore env now job =
      { score := 0, days_since_posted := none, freshness := "Unknown",
        salary := none, deadline := none, days_until_deadline := none,
        skills_match_pct := 0, company_tier := none,
        breakdown := { recency := 0, company := 0, salaryPts := 0, skills := 0 } } := by
  have hdays : calcDaysSincePosted now job.posted_date = none := by
    unfold calcDaysSincePosted
    rw [hdate]
  have hsk : calcSkillsMatch (envUserSkills env) job.title job.description = 0 := by
    unfold envUserSkills
    rw [if_pos hskills]
    unfold calcSkillsMatch
    rw [if_pos rfl]
  simp only [calculateScore, hdays, htier, hsal, hddl, hsk]
  rfl

/-- Witness for C6: a concrete record on which every component fails. -/
theorem claim_C6_score_never_fails_witness :
    calculateScore {} 0 { title := "x", company := "y", posted_date := "?" } =
      { score := 0, days_since_posted := none, freshness := "Unknown",
        salary := none, deadline := none, days_until_deadline := none,
        skills_match_pct := 0, company_tier := none,
        breakdown := { recency := 0, company := 0, salaryPts := 0, skills := 0 } } :=
  claim_C6_score_never_fails {} 0 { title := "x", company := "y", posted_date := "?" }
    (by decide) (by decide) (by decide) rfl (by decide)

/-- **C10.** Whenever the computed `days_since_posted` is non-null it is
`≥ 0`; and a `posted_date` that parses to a strictly future datetime is
clamped to 0 days, bucketed `"Fresh"`, and scores the maximum recency 40. -/
theorem claim_C10_days_clamped (env : ScorerEnv) (now : Int) (job : Job) :
    (∀ d : Int, (calculateScore env now job).days_since_posted = some d → 0 ≤ d) ∧
    (∀ t : Int, parsePostedDate now job.posted_date = some t → now < t →
      (calculateScore env now job).days_since_posted = some 0 ∧
      (calculateScore env now job).freshness = "Fresh" ∧
      (calculateScore env now job).breakdown.recency = 40) := by
  have hdproj : (calculateScore env now job).days_since_posted =
      calcDaysSincePosted now job.posted_date := rfl
  have hfproj : (calculateScore env now job).freshness =
      getFreshnessIndicator (calcDaysSincePosted now job.posted_date) := rfl
  constructor
  · intro d hd
    rw [hdproj] at hd
    unfold calcDaysSincePosted at hd
    rcases hparse : parsePostedDate now job.posted_date with _ | t
    · rw [hparse] at hd
      exact absurd hd (by simp)
    · rw [hparse] at hd
      simp only [Option.some.injEq] at hd
      omega
  · intro t hparse hfut
    have hzero : calcDaysSincePosted now job.posted_date = some 0 := by
      unfold calcDaysSincePosted
      rw [hparse]
      have hneg : (now - t).fdiv 86400 < 0 := Int.fdiv_neg' (by omega) (by norm_num)
      simp only [Option.some.injEq]
      omega
    refine ⟨hdproj.trans hzero, ?_, ?_⟩
    · rw [hfproj, hzero]
      rfl
    · rw [calculateScore_recency_eq, hzero]
      rfl

/-- Witness for C10: a record posted at a date in the model's future. -/
theorem claim_C10_days_clamped_witness :
    (calculateScore {} 0 { posted_date := "2030-01-01" }).days_since_posted = some 0 ∧
    (calculateScore {} 0 { posted_date := "2030-01-01" }).freshness = "Fresh" ∧
    (calculateScore {} 0 { posted_date := "2030-01-01" }).breakdown.recency = 40 :=
  (claim_C10_days_clamped {} 0 { posted_date := "2030-01-01" }).2
    (daysFromCivil 2030 1 1 * 86400) (by decide) (by decide)

/-- **C3, counterexample.** `extract("Package: 15-25 LPA")` does not return
`"₹15.0-25.0 LPA"`: the INR range matches with amounts 15 and 25, which are
below the `≥ 1000` threshold for LPA re-expression, so the plain-integer
branch formats the result. -/
theorem claim_C3_counterexample :
    salaryExtract "Package: 15-25 LPA" ≠ some "₹15.0-25.0 LPA" := by
  decide

/-- **C3, amended.** The three salary examples, with the second corrected to
the plain-integer form actually produced for amounts below 1000:
`extract("Salary: $80,000-$120,000") = "$80k-120k"`,
`extract("Package: 15-25 LPA") = "₹15-25"`, and
`extract("no numbers here") = null`. -/
theorem claim_C3_salary_examples :
    salaryExtract "Salary: $80,000-$120,000" = some "$80k-120k" ∧
    salaryExtract "Package: 15-25 LPA" = some "₹15-25" ∧
    salaryExtract "no numbers here" = none := by
  refine ⟨by decide, by decide, by decide⟩

/-- **C4, counterexample.** A job titled "Senior Backend Engineer" (empty
description, so no "full-time"/"permanent") is *accepted*, not rejected: the
senior-disqualification cues are only consulted after some junior-experience
cue matched, and this text matches none, so the filter defaults to
eligible. -/
theorem claim_C4_counterexample :
    isExperienceEligible "Senior Backend Engineer" "" = true := by
  decide

/-- **C4, amended.** The experience-eligibility examples as the code decides
them: "Senior Backend Engineer" is accepted (no junior-experience cue, so
the senior cues are never consulted and the permissive default applies);
"Software Engineer Intern" without "full-time"/"permanent" is rejected by the
internship exclusion; "Software Engineer - Fresher" is accepted. -/
theorem claim_C4_experience_examples :
    isExperienceEligible "Senior Backend Engineer" "" = true ∧
    isExperienceEligible "Software Engineer Intern" "" = false ∧
    isExperienceEligible "Software Engineer - Fresher" "" = true := by
  refine ⟨by decide, by decide, by decide⟩
